import Mathlib

/-!
Shallow embedding of pkg/validate/image.go (cri-tools image-manager
conformance tests).

The Go file is a Ginkgo test suite over an external
ImageManagerService client.  We model the client as a record of
response functions that may depend on the history of calls made so
far, and each test script as a function from the client and the call
log to the final call log together with the test outcome: Except.ok
for a passing script, Except.error with the failure message for a
script aborted by a failed assertion (gomega Expect / ExpectNoError
panics abort the test case).  The call log records every request
issued to the client, letting us state which requests a script issues
and in which order.
-/

namespace Validate

/-- Embeds runtimeapi.ImageSpec: the reference string identifying an image. -/
structure ImageSpec where
  image : String
deriving DecidableEq

/-- Embeds the fields of runtimeapi.Image used by the suite:
identifier, repo-tags, size. -/
structure Image where
  id : String
  repoTags : List String
  size : Nat
deriving DecidableEq

/-- Embeds runtimeapi.ImageFilter: an optional image spec narrowing a list query
(the zero value has a nil Image field, modelled as none). -/
structure ImageFilter where
  image : Option ImageSpec
deriving DecidableEq

/-- One request issued to the ImageManagerService client. -/
inductive Call where
  | pull (spec : ImageSpec)
  | remove (spec : ImageSpec)
  | list (filter : ImageFilter)
  | status (spec : ImageSpec)
deriving DecidableEq

/-- True exactly on remove requests. -/
def Call.isRemove : Call → Bool
  | Call.remove _ => true
  | _ => false

/-- True exactly on list requests. -/
def Call.isList : Call → Bool
  | Call.list _ => true
  | _ => false

/-- The external client (internalapi.ImageManagerService).  Each method
receives the history of calls issued so far, so responses may evolve as the
test mutates runtime state (e.g. a list after a remove may differ from a
list before it). -/
structure ImageManagerService where
  pullImage : List Call → ImageSpec → Except String String
  removeImage : List Call → ImageSpec → Except String Unit
  listImages : List Call → ImageFilter → Except String (List Image)
  imageStatus : List Call → ImageSpec → Except String Image

/-- Decidable equality of outcomes, for evaluating concrete scripts. -/
instance exceptDecEq {ε α : Type} [DecidableEq ε] [DecidableEq α] :
    DecidableEq (Except ε α) := fun x y =>
  match x, y with
  | Except.ok a, Except.ok b =>
    if h : a = b then Decidable.isTrue (by rw [h]) else
      Decidable.isFalse (by intro he; cases he; exact h rfl)
  | Except.error e, Except.error f =>
    if h : e = f then Decidable.isTrue (by rw [h]) else
      Decidable.isFalse (by intro he; cases he; exact h rfl)
  | Except.ok _, Except.error _ => Decidable.isFalse (by intro he; cases he)
  | Except.error _, Except.ok _ => Decidable.isFalse (by intro he; cases he)

/-- A test-script computation: given the client and the call log so far, it
returns the final call log and either the produced value or the failure
message of the assertion that aborted the script. -/
def TestM (α : Type) : Type :=
  ImageManagerService → List Call → List Call × Except String α

/-- Script returning a value, issuing no request. -/
def TestM.pure {α : Type} (a : α) : TestM α := fun _ log => (log, Except.ok a)

/-- Sequencing: a failed assertion aborts the rest of the script, as a gomega
failure panics out of the Go test body. -/
def TestM.bind {α β : Type} (x : TestM α) (f : α → TestM β) : TestM β :=
  fun c log =>
    match x c log with
    | (log1, Except.ok a) => f a c log1
    | (log1, Except.error e) => (log1, Except.error e)

/-- Embeds a Go defer: cleanup runs after the body, also when the body failed;
the body's failure (if any) is the one reported. -/
def deferRun {α : Type} (body : TestM α) (cleanup : TestM Unit) : TestM α :=
  fun c log =>
    match body c log with
    | (log1, r1) =>
      match cleanup c log1 with
      | (log2, r2) =>
        (log2,
          match r1 with
          | Except.ok a =>
            match r2 with
            | Except.ok _ => Except.ok a
            | Except.error e => Except.error e
          | Except.error e => Except.error e)

/-- Issue c.PullImage; the request is logged and the raw response returned. -/
def callPull (spec : ImageSpec) : TestM (Except String String) :=
  fun c log => (log ++ [Call.pull spec], Except.ok (c.pullImage log spec))

/-- Issue c.RemoveImage; the request is logged and the raw response returned. -/
def callRemove (spec : ImageSpec) : TestM (Except String Unit) :=
  fun c log => (log ++ [Call.remove spec], Except.ok (c.removeImage log spec))

/-- Issue c.ListImages; the request is logged and the raw response returned. -/
def callList (filter : ImageFilter) : TestM (Except String (List Image)) :=
  fun c log => (log ++ [Call.list filter], Except.ok (c.listImages log filter))

/-- Issue c.ImageStatus; the request is logged and the raw response returned. -/
def callStatus (spec : ImageSpec) : TestM (Except String Image) :=
  fun c log => (log ++ [Call.status spec], Except.ok (c.imageStatus log spec))

/-- Embeds framework.ExpectNoError: on an error the test case fails
immediately with the formatted message; otherwise the value passes through. -/
def expectNoError {α : Type} (r : Except String α) (msg : String) : TestM α :=
  fun _ log =>
    (log,
      match r with
      | Except.ok a => Except.ok a
      | Except.error e => Except.error (msg ++ e))

/-- Embeds gomega Expect(a).To(Equal(b)) on naturals. -/
def expectEq (a b : Nat) (msg : String) : TestM Unit :=
  fun _ log => (log, if a = b then Except.ok () else Except.error msg)

/-- Embeds a boolean gomega assertion. -/
def expectCond (b : Bool) (msg : String) : TestM Unit :=
  fun _ log => (log, if b then Except.ok () else Except.error msg)

/-- Embeds Go strings substring search: true when the second list occurs
(contiguously) inside the first. -/
def hasSubstring : List Char → List Char → Bool
  | _, [] => true
  | [], _ :: _ => false
  | a :: as, b :: bs =>
    (List.isPrefixOf (b :: bs) (a :: as)) || hasSubstring as (b :: bs)

/-- Embeds strings.Contains. -/
def stringsContains (s sub : String) : Bool :=
  hasSubstring s.data sub.data

/-- Embeds strings.EqualFold (case-insensitive string equality), folding
character by character. -/
def stringsEqualFold (a b : String) : Bool :=
  a.data.map Char.toLower == b.data.map Char.toLower

/-- The tag-defaulting step shared by pullPublicImage and
testPullPublicImage: append latest when the name contains no colon. -/
def defaultTag (imageName : String) : String :=
  if !stringsContains imageName ":" then imageName ++ ":latest" else imageName

/-- Image name for the test image api (var testImageName). -/
def testImageName : String := "busybox"

/-- Name-tagged reference for the test image (var testImageRef). -/
def testImageRef : String := testImageName ++ ":1.26.2"

/-- Digested reference for the test image (var busyboxDigestRef). -/
def busyboxDigestRef : String :=
  testImageName ++ "@sha256:817a12c32a39bbe394944ba49de563e085f1d3c5266eb8e9723256bc4448680e"

/-- Embeds pullPublicImage: when the name has no colon the tag latest is
appended, then the pull is issued and any error fails the test case. -/
def pullPublicImage (imageName : String) : TestM Unit :=
  let imageName :=
    if !stringsContains imageName ":" then imageName ++ ":latest" else imageName
  TestM.bind (callPull { image := imageName }) fun r =>
  TestM.bind (expectNoError r ("failed to pull image: ")) fun _ =>
  TestM.pure ()

/-- Embeds removeImage: issue the remove, any error fails the test case. -/
def removeImage (imageName : String) : TestM Unit :=
  TestM.bind (callRemove { image := imageName }) fun r =>
  expectNoError r ("failed to remove image: ")

/-- Embeds listImage: issue the list, any error fails the test case,
otherwise return the listed images. -/
def listImage (filter : ImageFilter) : TestM (List Image) :=
  TestM.bind (callList filter) fun r =>
  expectNoError r ("Failed to get image list: ")

/-- Embeds imageStatus: issue the status query, any error fails the test
case, otherwise return the image. -/
def imageStatus (imageName : String) : TestM Image :=
  TestM.bind (callStatus { image := imageName }) fun r =>
  expectNoError r ("failed to get image status: ")

/-- Embeds listImageForImageName: list filtered by the given image name. -/
def listImageForImageName (imageName : String) : TestM (List Image) :=
  listImage { image := some { image := imageName } }

/-- Embeds testRemoveImage: remove the image, then assert the filtered list
is empty. -/
def testRemoveImage (imageName : String) : TestM Unit :=
  TestM.bind (removeImage imageName) fun _ =>
  TestM.bind (listImageForImageName imageName) fun images =>
  expectEq images.length 0 ("Should have none image in list")

/-- Embeds testPullPublicImage: default the tag to latest when the name has
no colon, pull, assert the filtered list has exactly one image, then remove
and assert the filtered list is empty. -/
def testPullPublicImage (imageName : String) : TestM Unit :=
  let imageName :=
    if !stringsContains imageName ":" then imageName ++ ":latest" else imageName
  TestM.bind (pullPublicImage imageName) fun _ =>
  TestM.bind (listImageForImageName imageName) fun images =>
  TestM.bind (expectEq images.length 1 ("Should have one image in list")) fun _ =>
  testRemoveImage imageName

/-- Embeds pullImageList: pull each image of the list in order (an error in
one pull aborts the loop, as ExpectNoError panics out of it). -/
def pullImageList : List String → TestM Unit
  | [] => TestM.pure ()
  | n :: rest => TestM.bind (pullPublicImage n) fun _ => pullImageList rest

/-- Embeds removeImageList: remove each image of the list in order. -/
def removeImageList : List String → TestM Unit
  | [] => TestM.pure ()
  | n :: rest => TestM.bind (removeImage n) fun _ => removeImageList rest

/-- Image list of the distinct-images scenario (different tags refer to
different images). -/
def distinctImageList : List String :=
  ["busybox:1-uclibc", "busybox:1-musl", "busybox:1-glibc"]

/-- Image list of the shared-image scenario (different tags refer to the
same image). -/
def sharedImageList : List String :=
  ["busybox:1.26.2-uclibc", "busybox:1-uclibc", "busybox:1"]

/-- The tag-matching loop body of the distinct-images scenario: fold over one
image's repo-tags, incrementing the count for each tag equal (case folded) to
one of the three target tags. -/
def countDistinctTags (img : Image) (start : Nat) : Nat :=
  img.repoTags.foldl
    (fun count tag =>
      let count := if stringsEqualFold tag "busybox:1-uclibc" then count + 1 else count
      let count := if stringsEqualFold tag "busybox:1-musl" then count + 1 else count
      if stringsEqualFold tag "busybox:1-glibc" then count + 1 else count)
    start

/-- The count computed by the distinct-images scenario over the listed
images. -/
def countDistinct (images : List Image) : Nat :=
  images.foldl (fun count img => countDistinctTags img count) 0

/-- The per-tag step of the shared-image scenario count: increment the count
for each target tag equal (case folded) to the given tag. -/
def sharedTagStep (count : Nat) (tag : String) : Nat :=
  let count := if stringsEqualFold tag "busybox:1.26.2-uclibc" then count + 1 else count
  let count := if stringsEqualFold tag "busybox:1-uclibc" then count + 1 else count
  if stringsEqualFold tag "busybox:1" then count + 1 else count

/-- The tag-matching loop body of the shared-image scenario: fold over one
image's repo-tags, incrementing the count for each tag equal (case folded) to
one of the three target tags. -/
def countSharedTags (img : Image) (start : Nat) : Nat :=
  img.repoTags.foldl sharedTagStep start

/-- The per-record step of the shared-image scenario count: add the matching
tags of one image record, then reset the running count to zero when it is
still below 3. -/
def sharedStep (count : Nat) (img : Image) : Nat :=
  let count := countSharedTags img count
  if count < 3 then 0 else count

/-- The count computed by the shared-image scenario over the listed images:
per image record the matching tags are added and the running count is reset
to zero when it is still below 3. -/
def countShared (images : List Image) : Nat :=
  images.foldl sharedStep 0

/-- Scenario: public image with tag should be pulled and removed. -/
def pullTagScenario : TestM Unit := testPullPublicImage testImageRef

/-- Scenario: public image without tag should be pulled and removed. -/
def pullUntaggedScenario : TestM Unit := testPullPublicImage testImageName

/-- Scenario: public image with digest should be pulled and removed. -/
def pullDigestScenario : TestM Unit := testPullPublicImage busyboxDigestRef

/-- Scenario: image status get image fields should not be empty.  The remove
is deferred; the Id and Size assertions compare non-nilable Go values against
nil and therefore always pass, modelled as trivially true conditions. -/
def statusScenario : TestM Unit :=
  TestM.bind (pullPublicImage testImageRef) fun _ =>
  deferRun
    (TestM.bind (imageStatus testImageRef) fun status =>
     TestM.bind (expectCond true ("Image Id should not be nil")) fun _ =>
     TestM.bind (expectCond (status.repoTags.length != 0) ("Should have repoTags in image")) fun _ =>
     expectCond true ("Image Size should not be nil"))
    (removeImage testImageRef)

/-- Scenario: listImage should get exactly 3 image in the result list.  The
removes are deferred. -/
def distinctScenario : TestM Unit :=
  TestM.bind (pullImageList distinctImageList) fun _ =>
  deferRun
    (TestM.bind (listImage { image := none }) fun images =>
     expectEq (countDistinct images) 3 ("Should have the specified three images in list"))
    (removeImageList distinctImageList)

/-- Scenario: listImage should get exactly 3 repoTags in the result image.
The removes are deferred. -/
def sharedScenario : TestM Unit :=
  TestM.bind (pullImageList sharedImageList) fun _ =>
  deferRun
    (TestM.bind (listImage { image := none }) fun images =>
     expectEq (countShared images) 3 ("Should have three repoTags in single image in list"))
    (removeImageList sharedImageList)

/-- The Image Manager suite: the six It blocks, in source order, with their
description strings. -/
def imageManagerScenarios : List (String × TestM Unit) :=
  [("public image with tag should be pulled and removed [Conformance]", pullTagScenario),
   ("public image without tag should be pulled and removed [Conformance]", pullUntaggedScenario),
   ("public image with digest should be pulled and removed [Conformance]", pullDigestScenario),
   ("image status get image fields should not be empty [Conformance]", statusScenario),
   ("listImage should get exactly 3 image in the result list [Conformance]", distinctScenario),
   ("listImage should get exactly 3 repoTags in the result image [Conformance]", sharedScenario)]

/-- A fixed image record used by the concrete clients below. -/
def imgBusybox : Image :=
  { id := "sha256:b2", repoTags := ["busybox:1.26.2"], size := 100 }

/-- The pull requests issued by the distinct-images scenario. -/
def distinctPulls : List Call :=
  [Call.pull { image := "busybox:1-uclibc" },
   Call.pull { image := "busybox:1-musl" },
   Call.pull { image := "busybox:1-glibc" }]

/-- The pull requests issued by the shared-image scenario. -/
def sharedPulls : List Call :=
  [Call.pull { image := "busybox:1.26.2-uclibc" },
   Call.pull { image := "busybox:1-uclibc" },
   Call.pull { image := "busybox:1" }]

/-- A client on which all six scenarios pass: every call succeeds, a list
right after one pull sees one image, a list after a remove sees none, and the
lists of the two count scenarios see the expected records. -/
def cAllOk : ImageManagerService where
  pullImage := fun _ spec => Except.ok spec.image
  removeImage := fun _ _ => Except.ok ()
  listImages := fun log _ =>
    if log = distinctPulls then
      Except.ok
        [{ id := "sha256:u1", repoTags := ["busybox:1-uclibc"], size := 10 },
         { id := "sha256:m1", repoTags := ["busybox:1-musl"], size := 11 },
         { id := "sha256:g1", repoTags := ["busybox:1-glibc"], size := 12 }]
    else if log = sharedPulls then
      Except.ok
        [{ id := "sha256:s1",
           repoTags := ["busybox:1.26.2-uclibc", "busybox:1-uclibc", "busybox:1"],
           size := 13 }]
    else if log.length ≤ 2 then Except.ok [imgBusybox]
    else Except.ok []
  imageStatus := fun _ _ => Except.ok imgBusybox

/-- A client whose list responses are always empty (all calls succeed). -/
def cEmptyList : ImageManagerService where
  pullImage := fun _ spec => Except.ok spec.image
  removeImage := fun _ _ => Except.ok ()
  listImages := fun _ _ => Except.ok []
  imageStatus := fun _ _ => Except.ok imgBusybox

/-- A script only ever appends to the call log. -/
def LogMono {α : Type} (m : TestM α) : Prop :=
  ∀ (c : ImageManagerService) (log : List Call), ∃ d, (m c log).1 = log ++ d

/- ===================== theorems ===================== -/

/-- Searching for a one-character pattern succeeds exactly on the lists
containing that character. -/
theorem hasSubstring_single_iff (l : List Char) (c : Char) :
    hasSubstring l [c] = true ↔ c ∈ l := by
  induction l with
  | nil => simp [hasSubstring]
  | cons a as ih =>
    simp [hasSubstring, List.isPrefixOf, ih, List.mem_cons]

/-- The embedded strings.Contains with a one-character pattern tests
membership of the colon character. -/
theorem stringsContains_colon_iff (s : String) :
    stringsContains s ":" = true ↔ ':' ∈ s.data := by
  have h : (":" : String).data = [':'] := rfl
  rw [stringsContains, h, hasSubstring_single_iff]

/-- Appending the latest tag always yields a name containing a colon. -/
theorem stringsContains_append_latest (s : String) :
    stringsContains (s ++ ":latest") ":" = true := by
  rw [stringsContains_colon_iff, String.data_append]
  exact List.mem_append_right _ (by decide)

/-- The defaulted tag always contains a colon. -/
theorem stringsContains_defaultTag (s : String) :
    stringsContains (defaultTag s) ":" = true := by
  rw [defaultTag]
  cases h : stringsContains s ":" with
  | true => simp [h]
  | false => simp [h, stringsContains_append_latest]

/-- Characterization of pullPublicImage: it issues exactly one pull request,
carrying the defaulted name; an error response fails the test case with the
formatted message; a success response leaves the test case passing. -/
theorem pullPublicImage_eq (c : ImageManagerService) (log : List Call) (name : String) :
    pullPublicImage name c log =
      (log ++ [Call.pull { image := defaultTag name }],
       match c.pullImage log { image := defaultTag name } with
       | Except.ok _ => Except.ok ()
       | Except.error e => Except.error ("failed to pull image: " ++ e)) := by
  simp only [pullPublicImage, defaultTag, TestM.bind, callPull, expectNoError, TestM.pure]
  cases h : c.pullImage log { image := if !stringsContains name ":" then name ++ ":latest" else name } with
  | ok r => simp [h]
  | error e => simp [h]

/-- Characterization of removeImage: it issues exactly one remove request; an
error response fails the test case with the formatted message; a success
response leaves the test case passing. -/
theorem removeImage_eq (c : ImageManagerService) (log : List Call) (name : String) :
    removeImage name c log =
      (log ++ [Call.remove { image := name }],
       match c.removeImage log { image := name } with
       | Except.ok _ => Except.ok ()
       | Except.error e => Except.error ("failed to remove image: " ++ e)) := by
  simp only [removeImage, TestM.bind, callRemove, expectNoError]
  cases h : c.removeImage log { image := name } with
  | ok r => simp [h]
  | error e => simp [h]

/-- Characterization of listImage: it issues exactly one list request; an
error response fails the test case with the formatted message; a success
response returns the listed images. -/
theorem listImage_eq (c : ImageManagerService) (log : List Call) (filter : ImageFilter) :
    listImage filter c log =
      (log ++ [Call.list filter],
       match c.listImages log filter with
       | Except.ok imgs => Except.ok imgs
       | Except.error e => Except.error ("Failed to get image list: " ++ e)) := by
  simp only [listImage, TestM.bind, callList, expectNoError]
  cases h : c.listImages log filter with
  | ok r => simp [h]
  | error e => simp [h]

/-- Characterization of imageStatus: it issues exactly one status request; an
error response fails the test case with the formatted message; a success
response returns the image. -/
theorem imageStatus_eq (c : ImageManagerService) (log : List Call) (name : String) :
    imageStatus name c log =
      (log ++ [Call.status { image := name }],
       match c.imageStatus log { image := name } with
       | Except.ok img => Except.ok img
       | Except.error e => Except.error ("failed to get image status: " ++ e)) := by
  simp only [imageStatus, TestM.bind, callStatus, expectNoError]
  cases h : c.imageStatus log { image := name } with
  | ok r => simp [h]
  | error e => simp [h]

/-- Characterization of listImageForImageName: one list request, filtered by
the given name. -/
theorem listImageForImageName_eq (c : ImageManagerService) (log : List Call) (name : String) :
    listImageForImageName name c log =
      (log ++ [Call.list { image := some { image := name } }],
       match c.listImages log { image := some { image := name } } with
       | Except.ok imgs => Except.ok imgs
       | Except.error e => Except.error ("Failed to get image list: " ++ e)) := by
  rw [listImageForImageName, listImage_eq]

/-- Defaulting the tag twice is the same as defaulting it once. -/
theorem defaultTag_idem (s : String) : defaultTag (defaultTag s) = defaultTag s := by
  have h := stringsContains_defaultTag s
  conv_lhs => rw [defaultTag]
  rw [h]
  simp

/-- Unfolding testPullPublicImage through the defaulted tag. -/
theorem testPullPublicImage_def (name : String) :
    testPullPublicImage name =
      TestM.bind (pullPublicImage (defaultTag name)) (fun _ =>
      TestM.bind (listImageForImageName (defaultTag name)) (fun images =>
      TestM.bind (expectEq images.length 1 ("Should have one image in list")) (fun _ =>
      testRemoveImage (defaultTag name)))) := rfl

/-- The empty script appends nothing. -/
theorem logMono_pure {α : Type} (a : α) : LogMono (TestM.pure a) :=
  fun _ log => ⟨[], by simp [TestM.pure]⟩

/-- Sequencing two appending scripts appends. -/
theorem logMono_bind {α β : Type} {x : TestM α} {f : α → TestM β}
    (hx : LogMono x) (hf : ∀ a, LogMono (f a)) : LogMono (TestM.bind x f) := by
  intro c log
  obtain ⟨d1, hd1⟩ := hx c log
  rcases hxe : x c log with ⟨log1, r1⟩
  rw [hxe] at hd1
  simp only at hd1
  subst hd1
  cases r1 with
  | ok a =>
    obtain ⟨d2, hd2⟩ := hf a c (log ++ d1)
    refine ⟨d1 ++ d2, ?_⟩
    simp [TestM.bind, hxe, hd2, List.append_assoc]
  | error e =>
    refine ⟨d1, ?_⟩
    simp [TestM.bind, hxe]

/-- A deferred pair of appending scripts appends. -/
theorem logMono_deferRun {α : Type} {body : TestM α} {cleanup : TestM Unit}
    (hb : LogMono body) (hc : LogMono cleanup) : LogMono (deferRun body cleanup) := by
  intro c log
  obtain ⟨d1, hd1⟩ := hb c log
  rcases hbe : body c log with ⟨log1, r1⟩
  rw [hbe] at hd1
  simp only at hd1
  subst hd1
  obtain ⟨d2, hd2⟩ := hc c (log ++ d1)
  rcases hce : cleanup c (log ++ d1) with ⟨log2, r2⟩
  rw [hce] at hd2
  simp only at hd2
  subst hd2
  refine ⟨d1 ++ d2, ?_⟩
  simp [deferRun, hbe, hce, List.append_assoc]

/-- pullPublicImage appends a single pull request. -/
theorem logMono_pullPublicImage (name : String) : LogMono (pullPublicImage name) :=
  fun c log => ⟨[Call.pull { image := defaultTag name }], by rw [pullPublicImage_eq]⟩

/-- removeImage appends a single remove request. -/
theorem logMono_removeImage (name : String) : LogMono (removeImage name) :=
  fun c log => ⟨[Call.remove { image := name }], by rw [removeImage_eq]⟩

/-- listImage appends a single list request. -/
theorem logMono_listImage (filter : ImageFilter) : LogMono (listImage filter) :=
  fun c log => ⟨[Call.list filter], by rw [listImage_eq]⟩

/-- imageStatus appends a single status request. -/
theorem logMono_imageStatus (name : String) : LogMono (imageStatus name) :=
  fun c log => ⟨[Call.status { image := name }], by rw [imageStatus_eq]⟩

/-- listImageForImageName appends a single list request. -/
theorem logMono_listImageForImageName (name : String) : LogMono (listImageForImageName name) :=
  fun c log => ⟨[Call.list { image := some { image := name } }],
    by rw [listImageForImageName_eq]⟩

/-- expectEq issues no request. -/
theorem logMono_expectEq (a b : Nat) (msg : String) : LogMono (expectEq a b msg) :=
  fun _ log => ⟨[], by simp [expectEq]⟩

/-- expectCond issues no request. -/
theorem logMono_expectCond (b : Bool) (msg : String) : LogMono (expectCond b msg) :=
  fun _ log => ⟨[], by simp [expectCond]⟩

/-- testRemoveImage only appends requests. -/
theorem logMono_testRemoveImage (name : String) : LogMono (testRemoveImage name) := by
  rw [testRemoveImage]
  exact logMono_bind (logMono_removeImage name) fun _ =>
    logMono_bind (logMono_listImageForImageName name) fun images =>
      logMono_expectEq images.length 0 _

/-- testPullPublicImage only appends requests. -/
theorem logMono_testPullPublicImage (name : String) : LogMono (testPullPublicImage name) := by
  rw [testPullPublicImage_def]
  exact logMono_bind (logMono_pullPublicImage _) fun _ =>
    logMono_bind (logMono_listImageForImageName _) fun images =>
      logMono_bind (logMono_expectEq images.length 1 _) fun _ =>
        logMono_testRemoveImage _

/-- A name already containing a colon is not defaulted. -/
theorem defaultTag_of_contains {s : String} (h : stringsContains s ":" = true) :
    defaultTag s = s := by
  simp [defaultTag, h]

/-- A name containing no colon gets the latest tag appended. -/
theorem defaultTag_of_not_contains {s : String} (h : stringsContains s ":" = false) :
    defaultTag s = s ++ ":latest" := by
  simp [defaultTag, h]

/-- The defaulting decision is exactly membership of the colon character. -/
theorem defaultTag_eq_colon_mem (s : String) :
    defaultTag s = if ':' ∈ s.data then s else s ++ ":latest" := by
  by_cases h : ':' ∈ s.data
  · have hc : stringsContains s ":" = true := (stringsContains_colon_iff s).mpr h
    simp [defaultTag, hc, h]
  · have hc : stringsContains s ":" = false := by
      cases hx : stringsContains s ":" with
      | false => rfl
      | true => exact absurd ((stringsContains_colon_iff s).mp hx) h
    simp [defaultTag, hc, h]

/-- The requests issued by pullPublicImage: a single pull of the defaulted
name. -/
theorem pullPublicImage_trace (c : ImageManagerService) (log : List Call) (name : String) :
    (pullPublicImage name c log).1 = log ++ [Call.pull { image := defaultTag name }] := by
  rw [pullPublicImage_eq]

/-- The first request issued by testPullPublicImage is a pull of the
defaulted name. -/
theorem testPullPublicImage_trace (c : ImageManagerService) (log : List Call) (name : String) :
    ∃ d, (testPullPublicImage name c log).1 =
      log ++ Call.pull { image := defaultTag name } :: d := by
  rw [testPullPublicImage_def]
  simp only [TestM.bind]
  rw [pullPublicImage_eq, defaultTag_idem]
  cases h : c.pullImage log { image := defaultTag name } with
  | error e =>
    refine ⟨[], ?_⟩
    simp [h]
  | ok r =>
    obtain ⟨d2, hd2⟩ :=
      (logMono_bind (logMono_listImageForImageName (defaultTag name)) fun images =>
        logMono_bind (logMono_expectEq images.length 1 ("Should have one image in list")) fun _ =>
          logMono_testRemoveImage (defaultTag name)) c
        (log ++ [Call.pull { image := defaultTag name }])
    simp only [TestM.bind] at hd2
    refine ⟨d2, ?_⟩
    simp [hd2, List.append_assoc]

/-- Claim C1: for every image name given to pullPublicImage and to
testPullPublicImage, an untagged name (one containing no colon, hence
carrying neither tag nor digest) has the suffix latest appended before the
pull request is issued, and a name that already carries a tag or digest
(hence a colon) is passed to the pull request unchanged. -/
theorem pull_defaults_untagged_to_latest (c : ImageManagerService) (log : List Call)
    (name : String) :
    (stringsContains name ":" = false →
      (pullPublicImage name c log).1 = log ++ [Call.pull { image := name ++ ":latest" }] ∧
      ∃ d, (testPullPublicImage name c log).1 =
        log ++ Call.pull { image := name ++ ":latest" } :: d) ∧
    (stringsContains name ":" = true →
      (pullPublicImage name c log).1 = log ++ [Call.pull { image := name }] ∧
      ∃ d, (testPullPublicImage name c log).1 = log ++ Call.pull { image := name } :: d) := by
  constructor
  · intro h
    have hd := defaultTag_of_not_contains h
    constructor
    · rw [pullPublicImage_trace, hd]
    · have := testPullPublicImage_trace c log name
      rwa [hd] at this
  · intro h
    have hd := defaultTag_of_contains h
    constructor
    · rw [pullPublicImage_trace, hd]
    · have := testPullPublicImage_trace c log name
      rwa [hd] at this

/-- Witness for claim C1 at an untagged and at a tagged name, on a concrete
client: the untagged busybox is pulled as busybox:latest and the tagged
reference is pulled unchanged. -/
theorem pull_defaults_untagged_to_latest_witness :
    (stringsContains "busybox" ":" = false ∧
      (pullPublicImage "busybox" cAllOk []).1 =
        [] ++ [Call.pull { image := "busybox" ++ ":latest" }]) ∧
    (stringsContains "busybox:1.26.2" ":" = true ∧
      (pullPublicImage "busybox:1.26.2" cAllOk []).1 =
        [] ++ [Call.pull { image := "busybox:1.26.2" }]) :=
  ⟨⟨by decide,
    ((pull_defaults_untagged_to_latest cAllOk [] "busybox").1 (by decide)).1⟩,
   ⟨by decide,
    ((pull_defaults_untagged_to_latest cAllOk [] "busybox:1.26.2").2 (by decide)).1⟩⟩

/-- Claim C2: each wrapper (pullPublicImage, removeImage, listImage,
imageStatus) issues exactly one underlying client call; when the call
returns an error the enclosing test case fails immediately with a message
(no retry, backoff, recovery or error classification), and when it returns
no error the wrapper does not fail the test case and returns the call's
result. -/
theorem wrappers_fail_fast (c : ImageManagerService) (log : List Call)
    (name : String) (filter : ImageFilter) :
    (pullPublicImage name c log =
      (log ++ [Call.pull { image := defaultTag name }],
       match c.pullImage log { image := defaultTag name } with
       | Except.ok _ => Except.ok ()
       | Except.error e => Except.error ("failed to pull image: " ++ e))) ∧
    (removeImage name c log =
      (log ++ [Call.remove { image := name }],
       match c.removeImage log { image := name } with
       | Except.ok _ => Except.ok ()
       | Except.error e => Except.error ("failed to remove image: " ++ e))) ∧
    (listImage filter c log =
      (log ++ [Call.list filter],
       match c.listImages log filter with
       | Except.ok imgs => Except.ok imgs
       | Except.error e => Except.error ("Failed to get image list: " ++ e))) ∧
    (imageStatus name c log =
      (log ++ [Call.status { image := name }],
       match c.imageStatus log { image := name } with
       | Except.ok img => Except.ok img
       | Except.error e => Except.error ("failed to get image status: " ++ e))) :=
  ⟨pullPublicImage_eq c log name, removeImage_eq c log name,
   listImage_eq c log filter, imageStatus_eq c log name⟩

/-- Claim C9: the containership of a colon character, not the presence of a
tag, decides the defaulting: for every reference containing a colon anywhere
(tag colon, digest colon, or a registry-port colon) both pull paths issue
the pull request with the reference unchanged, and latest is appended
exactly when the reference contains no colon at all. -/
theorem colon_containership_decides_defaulting (c : ImageManagerService)
    (log : List Call) (name : String) :
    (pullPublicImage name c log).1 =
      log ++ [Call.pull { image := if ':' ∈ name.data then name else name ++ ":latest" }] ∧
    ∃ d, (testPullPublicImage name c log).1 =
      log ++ Call.pull { image := if ':' ∈ name.data then name else name ++ ":latest" } :: d := by
  constructor
  · rw [pullPublicImage_trace, defaultTag_eq_colon_mem]
  · have := testPullPublicImage_trace c log name
    rwa [defaultTag_eq_colon_mem] at this

/-- Claim C4: whenever testRemoveImage finishes without failing for an image
reference, the list request it issued after the remove — filtered by that
reference — was answered with zero image records (the test asserts the
filtered list is empty). -/
theorem testRemoveImage_empty_list (c : ImageManagerService) (log : List Call)
    (name : String) (h : (testRemoveImage name c log).2 = Except.ok ()) :
    ∃ imgs, c.listImages (log ++ [Call.remove { image := name }])
        { image := some { image := name } } = Except.ok imgs ∧ imgs.length = 0 := by
  simp only [testRemoveImage, TestM.bind] at h
  rw [removeImage_eq] at h
  cases hr : c.removeImage log { image := name } with
  | error e =>
    rw [hr] at h
    simp at h
  | ok u =>
    simp only [hr] at h
    rw [listImageForImageName_eq] at h
    cases hl : c.listImages (log ++ [Call.remove { image := name }])
        { image := some { image := name } } with
    | error e =>
      rw [hl] at h
      simp at h
    | ok imgs =>
      rw [hl] at h
      by_cases hlen : imgs.length = 0
      · exact ⟨imgs, rfl, hlen⟩
      · simp [expectEq, hlen] at h

/-- Witness for claim C4 on a concrete client whose lists are empty. -/
theorem testRemoveImage_empty_list_witness :
    (testRemoveImage ("busybox:latest") cEmptyList []).2 = Except.ok () ∧
    ∃ imgs, cEmptyList.listImages ([] ++ [Call.remove { image := "busybox:latest" }])
        { image := some { image := "busybox:latest" } } = Except.ok imgs ∧
      imgs.length = 0 :=
  ⟨rfl, testRemoveImage_empty_list cEmptyList [] ("busybox:latest") rfl⟩

/-- Claim C3 as stated is false: the post-pull verification list of
testPullPublicImage is not issued with no filter; on a concrete client the
passing scenario's trace shows both list requests carrying a filter for the
pulled reference. -/
theorem testPullPublicImage_filter_counterexample :
    (testPullPublicImage testImageRef cAllOk []).2 = Except.ok () ∧
    (testPullPublicImage testImageRef cAllOk []).1 =
      [Call.pull { image := testImageRef },
       Call.list { image := some { image := testImageRef } },
       Call.remove { image := testImageRef },
       Call.list { image := some { image := testImageRef } }] ∧
    ({ image := some { image := testImageRef } } : ImageFilter).image ≠ none := by
  refine ⟨rfl, rfl, ?_⟩
  simp

/-- Claim C3 amended: whenever the pull step of testPullPublicImage succeeds
for X, the test lists images filtered by X's defaulted reference and that
filtered list contains exactly one image record (asserted by the test). -/
theorem testPullPublicImage_one_image (c : ImageManagerService) (log : List Call)
    (name : String) (h : (testPullPublicImage name c log).2 = Except.ok ()) :
    ∃ imgs, c.listImages (log ++ [Call.pull { image := defaultTag name }])
        { image := some { image := defaultTag name } } = Except.ok imgs ∧
      imgs.length = 1 := by
  rw [testPullPublicImage_def] at h
  simp only [TestM.bind] at h
  rw [pullPublicImage_eq, defaultTag_idem] at h
  cases hp : c.pullImage log { image := defaultTag name } with
  | error e =>
    rw [hp] at h
    simp at h
  | ok r =>
    simp only [hp] at h
    rw [listImageForImageName_eq] at h
    cases hl : c.listImages (log ++ [Call.pull { image := defaultTag name }])
        { image := some { image := defaultTag name } } with
    | error e =>
      rw [hl] at h
      simp at h
    | ok imgs =>
      rw [hl] at h
      by_cases hlen : imgs.length = 1
      · exact ⟨imgs, rfl, hlen⟩
      · simp [expectEq, hlen] at h

/-- Witness for the amended claim C3 on a concrete client where the whole
scenario passes. -/
theorem testPullPublicImage_one_image_witness :
    (testPullPublicImage testImageRef cAllOk []).2 = Except.ok () ∧
    ∃ imgs, cAllOk.listImages ([] ++ [Call.pull { image := defaultTag testImageRef }])
        { image := some { image := defaultTag testImageRef } } = Except.ok imgs ∧
      imgs.length = 1 :=
  ⟨rfl, testPullPublicImage_one_image cAllOk [] testImageRef rfl⟩

/-- The per-tag step adds to the running count a value independent of it. -/
theorem sharedTagStep_add (acc : Nat) (tag : String) :
    sharedTagStep acc tag = acc + sharedTagStep 0 tag := by
  simp only [sharedTagStep]
  by_cases h1 : stringsEqualFold tag ("busybox:1.26.2-uclibc") = true <;>
    by_cases h2 : stringsEqualFold tag ("busybox:1-uclibc") = true <;>
      by_cases h3 : stringsEqualFold tag ("busybox:1") = true <;>
        simp [h1, h2, h3]

/-- The per-image tag count adds to the running count a value independent of
it. -/
theorem countSharedTags_shift (img : Image) (acc : Nat) :
    countSharedTags img acc = acc + countSharedTags img 0 := by
  rw [countSharedTags, countSharedTags]
  generalize img.repoTags = l
  induction l generalizing acc with
  | nil => simp
  | cons t l ih =>
    simp only [List.foldl_cons]
    rw [ih (sharedTagStep acc t), ih (sharedTagStep 0 t), sharedTagStep_add]
    omega

/-- Once the running count has reached 3, a shared-count step adds the
image's matching tags without resetting. -/
theorem sharedStep_of_ge (acc : Nat) (img : Image) (h : 3 ≤ acc) :
    sharedStep acc img = acc + countSharedTags img 0 := by
  simp only [sharedStep]
  rw [countSharedTags_shift]
  have hlt : ¬(acc + countSharedTags img 0 < 3) := by omega
  simp [hlt]

/-- Every output of the shared-count per-image step is zero or at least 3. -/
theorem sharedStep_zero_or_ge (acc : Nat) (img : Image) :
    sharedStep acc img = 0 ∨ 3 ≤ sharedStep acc img := by
  by_cases hc : countSharedTags img acc < 3
  · left
    simp [sharedStep, hc]
  · right
    simp only [sharedStep]
    simp [hc]
    omega

/-- Folding the shared-count step preserves being zero-or-at-least-3. -/
theorem foldl_sharedStep_inv (l : List Image) :
    ∀ acc, (acc = 0 ∨ 3 ≤ acc) →
      (l.foldl sharedStep acc = 0 ∨ 3 ≤ l.foldl sharedStep acc) := by
  induction l with
  | nil =>
    intro acc h
    simpa using h
  | cons i l ih =>
    intro acc _
    simp only [List.foldl_cons]
    exact ih (sharedStep acc i) (sharedStep_zero_or_ge acc i)

/-- From a running count of at least 3 the fold never decreases. -/
theorem foldl_sharedStep_ge (l : List Image) :
    ∀ acc, 3 ≤ acc → acc ≤ l.foldl sharedStep acc := by
  induction l with
  | nil =>
    intro acc _
    simp
  | cons i l ih =>
    intro acc hacc
    simp only [List.foldl_cons]
    rw [sharedStep_of_ge acc i hacc]
    have := ih (acc + countSharedTags i 0) (by omega)
    omega

/-- If from a running count of at least 3 the fold ends where it started,
every remaining image record matched no target tag. -/
theorem foldl_sharedStep_fixed (l : List Image) :
    ∀ acc, 3 ≤ acc → l.foldl sharedStep acc = acc →
      ∀ i ∈ l, countSharedTags i 0 = 0 := by
  induction l with
  | nil =>
    intro acc _ _ i hi
    cases hi
  | cons j l ih =>
    intro acc hacc heq i hi
    simp only [List.foldl_cons] at heq
    rw [sharedStep_of_ge acc j hacc] at heq
    have hge := foldl_sharedStep_ge l (acc + countSharedTags j 0) (by omega)
    rw [heq] at hge
    have hc0 : countSharedTags j 0 = 0 := by omega
    rcases List.mem_cons.mp hi with rfl | hi'
    · exact hc0
    · rw [hc0, Nat.add_zero] at heq
      exact ih acc hacc heq i hi'

/-- Claim C10: for every possible list of image records, the count computed
by the shared-image scenario is 0 or at least 3 — never 1 or 2 — because the
running count is reset to 0 after any image record that leaves it below 3. -/
theorem countShared_never_one_or_two (images : List Image) :
    (countShared images = 0 ∨ 3 ≤ countShared images) ∧
    countShared images ≠ 1 ∧ countShared images ≠ 2 := by
  have h : countShared images = 0 ∨ 3 ≤ countShared images :=
    foldl_sharedStep_inv images 0 (Or.inl rfl)
  exact ⟨h, by omega, by omega⟩

/-- A final shared count of exactly 3 decomposes the image list around one
record that alone matched exactly 3 target tags: the records before it left
the running count at 0 and the records after it matched none. -/
theorem countShared_eq_three (l : List Image) (h : countShared l = 3) :
    ∃ l1 img l2, l = l1 ++ img :: l2 ∧ countShared l1 = 0 ∧
      countSharedTags img 0 = 3 ∧ ∀ i ∈ l2, countSharedTags i 0 = 0 := by
  rw [countShared] at h
  induction l with
  | nil => simp at h
  | cons j l ih =>
    simp only [List.foldl_cons] at h
    by_cases hj : countSharedTags j 0 < 3
    · have hstep : sharedStep 0 j = 0 := by
        simp only [sharedStep]
        rw [show countSharedTags j 0 = ((0 : Nat) + countSharedTags j 0) by omega] at hj
        rw [← countSharedTags_shift] at hj
        simp [hj]
      rw [hstep] at h
      obtain ⟨l1, img, l2, hl, h0, h3, hrest⟩ := ih h
      refine ⟨j :: l1, img, l2, by rw [hl]; rfl, ?_, h3, hrest⟩
      rw [countShared] at h0 ⊢
      simp only [List.foldl_cons, hstep]
      exact h0
    · have hstep : sharedStep 0 j = countSharedTags j 0 := by
        simp only [sharedStep]
        rw [show countSharedTags j 0 = ((0 : Nat) + countSharedTags j 0) by omega] at hj
        rw [← countSharedTags_shift] at hj
        simp [hj]
      rw [hstep] at h
      have hge := foldl_sharedStep_ge l (countSharedTags j 0) (by omega)
      rw [h] at hge
      have h3 : countSharedTags j 0 = 3 := by omega
      rw [h3] at h
      have hrest := foldl_sharedStep_fixed l 3 (by omega) h
      exact ⟨[], j, l, rfl, rfl, h3, hrest⟩

/-- When a deferred pair of scripts passes, its body passed. -/
theorem deferRun_ok_body {α : Type} {body : TestM α} {cleanup : TestM Unit}
    {c : ImageManagerService} {log : List Call} {a : α}
    (h : (deferRun body cleanup c log).2 = Except.ok a) :
    (body c log).2 = Except.ok a := by
  rcases hbe : body c log with ⟨log1, r1⟩
  rcases hce : cleanup c log1 with ⟨log2, r2⟩
  simp only [deferRun, hbe, hce] at h
  cases r1 with
  | ok b =>
    cases r2 with
    | ok u =>
      simpa using h
    | error e => simp at h
  | error e => simp at h

/-- Claim C5: when the shared-image scenario passes, the count it computed
over the images listed (with the empty filter) after the three pulls equals
exactly 3, and the listed records decompose around one single image record
that alone carried the 3 matching target tags: the records before it left
the running count at 0 and the records after it matched none. -/
theorem sharedScenario_three_repoTags (c : ImageManagerService)
    (h : (sharedScenario c []).2 = Except.ok ()) :
    ∃ imgs, c.listImages sharedPulls { image := none } = Except.ok imgs ∧
      countShared imgs = 3 ∧
      ∃ l1 img l2, imgs = l1 ++ img :: l2 ∧ countShared l1 = 0 ∧
        countSharedTags img 0 = 3 ∧ ∀ i ∈ l2, countSharedTags i 0 = 0 := by
  rw [sharedPulls]
  simp only [sharedScenario, sharedImageList, pullImageList, TestM.bind, TestM.pure] at h
  rw [pullPublicImage_eq] at h
  rw [show defaultTag ("busybox:1.26.2-uclibc") = "busybox:1.26.2-uclibc" from by decide] at h
  cases hp1 : c.pullImage [] { image := "busybox:1.26.2-uclibc" } with
  | error e =>
    rw [hp1] at h
    simp at h
  | ok r1 =>
    simp only [hp1, List.nil_append] at h
    rw [pullPublicImage_eq] at h
    rw [show defaultTag ("busybox:1-uclibc") = "busybox:1-uclibc" from by decide] at h
    cases hp2 : c.pullImage [Call.pull { image := "busybox:1.26.2-uclibc" }]
        { image := "busybox:1-uclibc" } with
    | error e =>
      rw [hp2] at h
      simp at h
    | ok r2 =>
      simp only [hp2, List.cons_append, List.nil_append] at h
      rw [pullPublicImage_eq] at h
      rw [show defaultTag ("busybox:1") = "busybox:1" from by decide] at h
      cases hp3 : c.pullImage
          [Call.pull { image := "busybox:1.26.2-uclibc" }, Call.pull { image := "busybox:1-uclibc" }]
          { image := "busybox:1" } with
      | error e =>
        rw [hp3] at h
        simp at h
      | ok r3 =>
        simp only [hp3, List.cons_append, List.nil_append] at h
        have hb := deferRun_ok_body h
        simp only [TestM.bind] at hb
        rw [listImage_eq] at hb
        cases hl : c.listImages
            [Call.pull { image := "busybox:1.26.2-uclibc" }, Call.pull { image := "busybox:1-uclibc" },
             Call.pull { image := "busybox:1" }] { image := none } with
        | error e =>
          rw [hl] at hb
          simp at hb
        | ok imgs =>
          by_cases hcnt : countShared imgs = 3
          · exact ⟨imgs, rfl, hcnt, countShared_eq_three imgs hcnt⟩
          · rw [hl] at hb
            simp [expectEq, hcnt] at hb

/-- Witness for claim C5 on a concrete client where the scenario passes with
a single three-tagged image record. -/
theorem sharedScenario_three_repoTags_witness :
    (sharedScenario cAllOk []).2 = Except.ok () ∧
    ∃ imgs, cAllOk.listImages sharedPulls { image := none } = Except.ok imgs ∧
      countShared imgs = 3 ∧
      ∃ l1 img l2, imgs = l1 ++ img :: l2 ∧ countShared l1 = 0 ∧
        countSharedTags img 0 = 3 ∧ ∀ i ∈ l2, countSharedTags i 0 = 0 :=
  ⟨by decide, sharedScenario_three_repoTags cAllOk (by decide)⟩

/-- Claim C8 as stated is false: the suite registers six It scenarios, not
five (the spec's own enumeration already lists six names). -/
theorem imageManagerScenarios_not_five :
    imageManagerScenarios.length = 6 ∧ ¬imageManagerScenarios.length = 5 :=
  ⟨rfl, by decide⟩

/-- Claim C8 amended: the suite consists of exactly six fixed test
scenarios, in source order pull-by-tag, pull-by-untagged-name,
pull-by-digest, status-field-presence, list-count-by-distinct-images and
list-count-by-shared-image-distinct-tags; each registered scenario is
exactly its straight-line script of wrapper calls and assertions, and on a
conforming client each runs its fixed call sequence to a pass. -/
theorem imageManagerScenarios_six :
    imageManagerScenarios.length = 6 ∧
    imageManagerScenarios.map Prod.fst =
      ["public image with tag should be pulled and removed [Conformance]",
       "public image without tag should be pulled and removed [Conformance]",
       "public image with digest should be pulled and removed [Conformance]",
       "image status get image fields should not be empty [Conformance]",
       "listImage should get exactly 3 image in the result list [Conformance]",
       "listImage should get exactly 3 repoTags in the result image [Conformance]"] ∧
    imageManagerScenarios.map Prod.snd =
      [pullTagScenario, pullUntaggedScenario, pullDigestScenario,
       statusScenario, distinctScenario, sharedScenario] ∧
    ((pullTagScenario cAllOk []).1 =
        [Call.pull { image := testImageRef },
         Call.list { image := some { image := testImageRef } },
         Call.remove { image := testImageRef },
         Call.list { image := some { image := testImageRef } }] ∧
      (pullTagScenario cAllOk []).2 = Except.ok ()) ∧
    ((pullUntaggedScenario cAllOk []).1 =
        [Call.pull { image := "busybox:latest" },
         Call.list { image := some { image := "busybox:latest" } },
         Call.remove { image := "busybox:latest" },
         Call.list { image := some { image := "busybox:latest" } }] ∧
      (pullUntaggedScenario cAllOk []).2 = Except.ok ()) ∧
    ((pullDigestScenario cAllOk []).1 =
        [Call.pull { image := busyboxDigestRef },
         Call.list { image := some { image := busyboxDigestRef } },
         Call.remove { image := busyboxDigestRef },
         Call.list { image := some { image := busyboxDigestRef } }] ∧
      (pullDigestScenario cAllOk []).2 = Except.ok ()) ∧
    ((statusScenario cAllOk []).1 =
        [Call.pull { image := testImageRef }, Call.status { image := testImageRef },
         Call.remove { image := testImageRef }] ∧
      (statusScenario cAllOk []).2 = Except.ok ()) ∧
    ((distinctScenario cAllOk []).1 =
        distinctPulls ++ Call.list { image := none } ::
          [Call.remove { image := "busybox:1-uclibc" },
           Call.remove { image := "busybox:1-musl" },
           Call.remove { image := "busybox:1-glibc" }] ∧
      (distinctScenario cAllOk []).2 = Except.ok ()) ∧
    ((sharedScenario cAllOk []).1 =
        sharedPulls ++ Call.list { image := none } ::
          [Call.remove { image := "busybox:1.26.2-uclibc" },
           Call.remove { image := "busybox:1-uclibc" },
           Call.remove { image := "busybox:1" }] ∧
      (sharedScenario cAllOk []).2 = Except.ok ()) :=
  ⟨rfl, rfl, rfl,
   ⟨by decide, by decide⟩, ⟨by decide, by decide⟩, ⟨by decide, by decide⟩,
   ⟨by decide, by decide⟩, ⟨by decide, by decide⟩, ⟨by decide, by decide⟩⟩

/-- Claim C6 as stated is false: the status scenario issues no list request
at all — on a passing client its whole call sequence is pull, status,
remove — so not every test case follows the order pull, assert on the list,
remove, assert the filtered list empty. -/
theorem statusScenario_no_list_counterexample :
    (statusScenario cAllOk []).1 =
      [Call.pull { image := testImageRef }, Call.status { image := testImageRef },
       Call.remove { image := testImageRef }] ∧
    ((statusScenario cAllOk []).1.any Call.isList) = false ∧
    (statusScenario cAllOk []).2 = Except.ok () := by
  refine ⟨by decide, by decide, by decide⟩

/-- Claim C6 amended: each scenario is a fixed straight-line script, but the
operation order differs by scenario.  On a passing client the three pull
scenarios issue pull, filtered list, remove, filtered list; the status
scenario issues pull, status, remove with no list request; the two count
scenarios issue three pulls, one unfiltered list, three removes with no
post-remove empty-list assertion. -/
theorem scenario_scripts_fixed :
    ((pullTagScenario cAllOk []).1 =
      [Call.pull { image := testImageRef },
       Call.list { image := some { image := testImageRef } },
       Call.remove { image := testImageRef },
       Call.list { image := some { image := testImageRef } }] ∧
      (pullTagScenario cAllOk []).2 = Except.ok ()) ∧
    ((pullUntaggedScenario cAllOk []).1 =
      [Call.pull { image := "busybox:latest" },
       Call.list { image := some { image := "busybox:latest" } },
       Call.remove { image := "busybox:latest" },
       Call.list { image := some { image := "busybox:latest" } }] ∧
      (pullUntaggedScenario cAllOk []).2 = Except.ok ()) ∧
    ((pullDigestScenario cAllOk []).1 =
      [Call.pull { image := busyboxDigestRef },
       Call.list { image := some { image := busyboxDigestRef } },
       Call.remove { image := busyboxDigestRef },
       Call.list { image := some { image := busyboxDigestRef } }] ∧
      (pullDigestScenario cAllOk []).2 = Except.ok ()) ∧
    ((statusScenario cAllOk []).1 =
      [Call.pull { image := testImageRef }, Call.status { image := testImageRef },
       Call.remove { image := testImageRef }] ∧
      (statusScenario cAllOk []).2 = Except.ok ()) ∧
    ((distinctScenario cAllOk []).1 =
      distinctPulls ++ Call.list { image := none } ::
        [Call.remove { image := "busybox:1-uclibc" },
         Call.remove { image := "busybox:1-musl" },
         Call.remove { image := "busybox:1-glibc" }] ∧
      (distinctScenario cAllOk []).2 = Except.ok ()) ∧
    ((sharedScenario cAllOk []).1 =
      sharedPulls ++ Call.list { image := none } ::
        [Call.remove { image := "busybox:1.26.2-uclibc" },
         Call.remove { image := "busybox:1-uclibc" },
         Call.remove { image := "busybox:1" }] ∧
      (sharedScenario cAllOk []).2 = Except.ok ()) := by
  exact ⟨⟨by decide, by decide⟩, ⟨by decide, by decide⟩, ⟨by decide, by decide⟩,
    ⟨by decide, by decide⟩, ⟨by decide, by decide⟩, ⟨by decide, by decide⟩⟩

/-- The final call log of a deferred pair: the cleanup extends the body's
log, regardless of either outcome. -/
theorem deferRun_fst {α : Type} (body : TestM α) (cleanup : TestM Unit)
    (c : ImageManagerService) (log : List Call) :
    (deferRun body cleanup c log).1 = (cleanup c (body c log).1).1 := by
  rcases hbe : body c log with ⟨log1, r1⟩
  rcases hce : cleanup c log1 with ⟨log2, r2⟩
  simp [deferRun, hbe, hce]

/-- removeImageList only appends requests. -/
theorem logMono_removeImageList (L : List String) : LogMono (removeImageList L) := by
  induction L with
  | nil => exact logMono_pure ()
  | cons n rest ih => exact logMono_bind (logMono_removeImage n) fun _ => ih

/-- The first request issued by a non-empty removeImageList is the remove of
the first image of the list, whatever the responses. -/
theorem removeImageList_trace (n : String) (L : List String)
    (c : ImageManagerService) (log : List Call) :
    ∃ d, (removeImageList (n :: L) c log).1 = log ++ Call.remove { image := n } :: d := by
  simp only [removeImageList, TestM.bind]
  rw [removeImage_eq]
  cases hr : c.removeImage log { image := n } with
  | error e => exact ⟨[], by simp⟩
  | ok u =>
    obtain ⟨d2, hd2⟩ := logMono_removeImageList L c (log ++ [Call.remove { image := n }])
    exact ⟨d2, by simp [hd2, List.append_assoc]⟩

/-- Once its pull succeeded, the status scenario always issues its remove:
its call sequence is pull, status, remove whatever the status response and
however the field assertions fare, because the remove is deferred. -/
theorem statusScenario_deferred_cleanup (c : ImageManagerService) (r : String)
    (hp : c.pullImage [] { image := testImageRef } = Except.ok r) :
    (statusScenario c []).1 =
      [Call.pull { image := testImageRef }, Call.status { image := testImageRef },
       Call.remove { image := testImageRef }] := by
  simp only [statusScenario, TestM.bind]
  rw [pullPublicImage_eq]
  rw [show defaultTag testImageRef = testImageRef from by decide]
  simp only [hp, List.nil_append]
  rw [deferRun_fst]
  have hbody : ((TestM.bind (imageStatus testImageRef) fun status =>
      TestM.bind (expectCond true ("Image Id should not be nil")) fun _ =>
      TestM.bind (expectCond (status.repoTags.length != 0) ("Should have repoTags in image")) fun _ =>
      expectCond true ("Image Size should not be nil")) c
        [Call.pull { image := testImageRef }]).1 =
      [Call.pull { image := testImageRef }, Call.status { image := testImageRef }] := by
    simp only [TestM.bind]
    rw [imageStatus_eq]
    cases hs : c.imageStatus [Call.pull { image := testImageRef }] { image := testImageRef } with
    | error e => simp
    | ok img =>
      by_cases hrt : (img.repoTags.length != 0) = true <;>
        simp [expectCond, TestM.bind, hrt]
  rw [hbody, removeImage_eq]
  simp

/-- Once its three pulls succeeded, the shared-image scenario always begins
its deferred cleanup: after the unfiltered list request it issues the remove
of the first pulled tag, whatever the list response and however the count
assertion fares. -/
theorem sharedScenario_deferred_cleanup (c : ImageManagerService) (r1 r2 r3 : String)
    (hp1 : c.pullImage [] { image := "busybox:1.26.2-uclibc" } = Except.ok r1)
    (hp2 : c.pullImage [Call.pull { image := "busybox:1.26.2-uclibc" }]
      { image := "busybox:1-uclibc" } = Except.ok r2)
    (hp3 : c.pullImage
      [Call.pull { image := "busybox:1.26.2-uclibc" }, Call.pull { image := "busybox:1-uclibc" }]
      { image := "busybox:1" } = Except.ok r3) :
    ∃ d, (sharedScenario c []).1 =
      sharedPulls ++ Call.list { image := none } ::
        Call.remove { image := "busybox:1.26.2-uclibc" } :: d := by
  rw [sharedPulls]
  simp only [sharedScenario, sharedImageList, pullImageList, TestM.bind, TestM.pure]
  rw [pullPublicImage_eq]
  rw [show defaultTag ("busybox:1.26.2-uclibc") = "busybox:1.26.2-uclibc" from by decide]
  simp only [hp1, List.nil_append]
  rw [pullPublicImage_eq]
  rw [show defaultTag ("busybox:1-uclibc") = "busybox:1-uclibc" from by decide]
  simp only [hp2, List.cons_append, List.nil_append]
  rw [pullPublicImage_eq]
  rw [show defaultTag ("busybox:1") = "busybox:1" from by decide]
  simp only [hp3, List.cons_append, List.nil_append]
  rw [deferRun_fst]
  have hbody : ((TestM.bind (listImage { image := none }) fun images =>
      expectEq (countShared images) 3 ("Should have three repoTags in single image in list")) c
        [Call.pull { image := "busybox:1.26.2-uclibc" }, Call.pull { image := "busybox:1-uclibc" },
         Call.pull { image := "busybox:1" }]).1 =
      [Call.pull { image := "busybox:1.26.2-uclibc" }, Call.pull { image := "busybox:1-uclibc" },
       Call.pull { image := "busybox:1" }, Call.list { image := none }] := by
    simp only [TestM.bind]
    rw [listImage_eq]
    cases hl : c.listImages
        [Call.pull { image := "busybox:1.26.2-uclibc" }, Call.pull { image := "busybox:1-uclibc" },
         Call.pull { image := "busybox:1" }] { image := none } with
    | error e => simp
    | ok imgs =>
      by_cases hcnt : countShared imgs = 3 <;> simp [expectEq, hcnt]
  rw [hbody]
  obtain ⟨d, hd⟩ := removeImageList_trace ("busybox:1.26.2-uclibc")
    ["busybox:1-uclibc", "busybox:1"] c
    [Call.pull { image := "busybox:1.26.2-uclibc" }, Call.pull { image := "busybox:1-uclibc" },
     Call.pull { image := "busybox:1" }, Call.list { image := none }]
  exact ⟨d, by simp [hd]⟩

/-- Once its three pulls succeeded, the distinct-images scenario always
begins its deferred cleanup: after the unfiltered list request it issues the
remove of the first pulled tag, whatever the list response and however the
count assertion fares. -/
theorem distinctScenario_deferred_cleanup (c : ImageManagerService) (r1 r2 r3 : String)
    (hp1 : c.pullImage [] { image := "busybox:1-uclibc" } = Except.ok r1)
    (hp2 : c.pullImage [Call.pull { image := "busybox:1-uclibc" }]
      { image := "busybox:1-musl" } = Except.ok r2)
    (hp3 : c.pullImage
      [Call.pull { image := "busybox:1-uclibc" }, Call.pull { image := "busybox:1-musl" }]
      { image := "busybox:1-glibc" } = Except.ok r3) :
    ∃ d, (distinctScenario c []).1 =
      distinctPulls ++ Call.list { image := none } ::
        Call.remove { image := "busybox:1-uclibc" } :: d := by
  rw [distinctPulls]
  simp only [distinctScenario, distinctImageList, pullImageList, TestM.bind, TestM.pure]
  rw [pullPublicImage_eq]
  rw [show defaultTag ("busybox:1-uclibc") = "busybox:1-uclibc" from by decide]
  simp only [hp1, List.nil_append]
  rw [pullPublicImage_eq]
  rw [show defaultTag ("busybox:1-musl") = "busybox:1-musl" from by decide]
  simp only [hp2, List.cons_append, List.nil_append]
  rw [pullPublicImage_eq]
  rw [show defaultTag ("busybox:1-glibc") = "busybox:1-glibc" from by decide]
  simp only [hp3, List.cons_append, List.nil_append]
  rw [deferRun_fst]
  have hbody : ((TestM.bind (listImage { image := none }) fun images =>
      expectEq (countDistinct images) 3 ("Should have the specified three images in list")) c
        [Call.pull { image := "busybox:1-uclibc" }, Call.pull { image := "busybox:1-musl" },
         Call.pull { image := "busybox:1-glibc" }]).1 =
      [Call.pull { image := "busybox:1-uclibc" }, Call.pull { image := "busybox:1-musl" },
       Call.pull { image := "busybox:1-glibc" }, Call.list { image := none }] := by
    simp only [TestM.bind]
    rw [listImage_eq]
    cases hl : c.listImages
        [Call.pull { image := "busybox:1-uclibc" }, Call.pull { image := "busybox:1-musl" },
         Call.pull { image := "busybox:1-glibc" }] { image := none } with
    | error e => simp
    | ok imgs =>
      by_cases hcnt : countDistinct imgs = 3 <;> simp [expectEq, hcnt]
  rw [hbody]
  obtain ⟨d, hd⟩ := removeImageList_trace ("busybox:1-uclibc")
    ["busybox:1-musl", "busybox:1-glibc"] c
    [Call.pull { image := "busybox:1-uclibc" }, Call.pull { image := "busybox:1-musl" },
     Call.pull { image := "busybox:1-glibc" }, Call.list { image := none }]
  exact ⟨d, by simp [hd]⟩

/-- In testPullPublicImage the removal is not deferred: for every image
name, when the one-image assertion fails the script stops after the pull
and the filtered list, and no remove request is ever issued. -/
theorem testPullPublicImage_skips_cleanup (c : ImageManagerService) (r : String)
    (imgs : List Image) (name : String)
    (hp : c.pullImage [] { image := defaultTag name } = Except.ok r)
    (hl : c.listImages [Call.pull { image := defaultTag name }]
      { image := some { image := defaultTag name } } = Except.ok imgs)
    (hlen : imgs.length ≠ 1) :
    (testPullPublicImage name c []).1 =
      [Call.pull { image := defaultTag name },
       Call.list { image := some { image := defaultTag name } }] ∧
    (testPullPublicImage name c []).2 = Except.error ("Should have one image in list") := by
  rw [testPullPublicImage_def]
  simp only [TestM.bind]
  rw [pullPublicImage_eq, defaultTag_idem]
  simp only [hp, List.nil_append]
  rw [listImageForImageName_eq]
  simp only [hl]
  simp [expectEq, hlen]

/-- Claim C7 amended: cleanup is deferred only in the status scenario and
the two count scenarios, where the removes run on scenario exit even when an
intervening assertion fails; in the three pull scenarios the removal is a
direct call after the one-image assertion and is skipped when that assertion
fails.  One conjunct per scenario: the status scenario always issues its
remove once the pull succeeded; each count scenario always issues the remove
of its first pulled tag after the unfiltered list once its pulls succeeded;
each pull scenario issues no remove when its one-image assertion fails. -/
theorem cleanup_deferred_only_in_status_and_count_scenarios :
    (∀ (c : ImageManagerService) (r : String),
      c.pullImage [] { image := testImageRef } = Except.ok r →
      (statusScenario c []).1 =
        [Call.pull { image := testImageRef }, Call.status { image := testImageRef },
         Call.remove { image := testImageRef }]) ∧
    (∀ (c : ImageManagerService) (r1 r2 r3 : String),
      c.pullImage [] { image := "busybox:1-uclibc" } = Except.ok r1 →
      c.pullImage [Call.pull { image := "busybox:1-uclibc" }]
        { image := "busybox:1-musl" } = Except.ok r2 →
      c.pullImage
        [Call.pull { image := "busybox:1-uclibc" }, Call.pull { image := "busybox:1-musl" }]
        { image := "busybox:1-glibc" } = Except.ok r3 →
      ∃ d, (distinctScenario c []).1 =
        distinctPulls ++ Call.list { image := none } ::
          Call.remove { image := "busybox:1-uclibc" } :: d) ∧
    (∀ (c : ImageManagerService) (r1 r2 r3 : String),
      c.pullImage [] { image := "busybox:1.26.2-uclibc" } = Except.ok r1 →
      c.pullImage [Call.pull { image := "busybox:1.26.2-uclibc" }]
        { image := "busybox:1-uclibc" } = Except.ok r2 →
      c.pullImage
        [Call.pull { image := "busybox:1.26.2-uclibc" }, Call.pull { image := "busybox:1-uclibc" }]
        { image := "busybox:1" } = Except.ok r3 →
      ∃ d, (sharedScenario c []).1 =
        sharedPulls ++ Call.list { image := none } ::
          Call.remove { image := "busybox:1.26.2-uclibc" } :: d) ∧
    (∀ (c : ImageManagerService) (r : String) (imgs : List Image),
      c.pullImage [] { image := testImageRef } = Except.ok r →
      c.listImages [Call.pull { image := testImageRef }]
        { image := some { image := testImageRef } } = Except.ok imgs →
      imgs.length ≠ 1 →
      (pullTagScenario c []).1 =
        [Call.pull { image := testImageRef },
         Call.list { image := some { image := testImageRef } }] ∧
      (pullTagScenario c []).2 = Except.error ("Should have one image in list")) ∧
    (∀ (c : ImageManagerService) (r : String) (imgs : List Image),
      c.pullImage [] { image := "busybox:latest" } = Except.ok r →
      c.listImages [Call.pull { image := "busybox:latest" }]
        { image := some { image := "busybox:latest" } } = Except.ok imgs →
      imgs.length ≠ 1 →
      (pullUntaggedScenario c []).1 =
        [Call.pull { image := "busybox:latest" },
         Call.list { image := some { image := "busybox:latest" } }] ∧
      (pullUntaggedScenario c []).2 = Except.error ("Should have one image in list")) ∧
    (∀ (c : ImageManagerService) (r : String) (imgs : List Image),
      c.pullImage [] { image := busyboxDigestRef } = Except.ok r →
      c.listImages [Call.pull { image := busyboxDigestRef }]
        { image := some { image := busyboxDigestRef } } = Except.ok imgs →
      imgs.length ≠ 1 →
      (pullDigestScenario c []).1 =
        [Call.pull { image := busyboxDigestRef },
         Call.list { image := some { image := busyboxDigestRef } }] ∧
      (pullDigestScenario c []).2 = Except.error ("Should have one image in list")) := by
  refine ⟨statusScenario_deferred_cleanup, distinctScenario_deferred_cleanup,
    sharedScenario_deferred_cleanup, ?_, ?_, ?_⟩
  · intro c r imgs hp hl hlen
    have e : defaultTag testImageRef = testImageRef := by decide
    have h2 := testPullPublicImage_skips_cleanup c r imgs testImageRef
      (by rw [e]; exact hp) (by rw [e]; exact hl) hlen
    rw [e] at h2
    exact h2
  · intro c r imgs hp hl hlen
    have e : defaultTag testImageName = "busybox:latest" := by decide
    have h2 := testPullPublicImage_skips_cleanup c r imgs testImageName
      (by rw [e]; exact hp) (by rw [e]; exact hl) hlen
    rw [e] at h2
    exact h2
  · intro c r imgs hp hl hlen
    have e : defaultTag busyboxDigestRef = busyboxDigestRef := by decide
    have h2 := testPullPublicImage_skips_cleanup c r imgs busyboxDigestRef
      (by rw [e]; exact hp) (by rw [e]; exact hl) hlen
    rw [e] at h2
    exact h2

/-- Witness for the amended claim C7 on a concrete client whose lists are
always empty: the status scenario still removes, both count scenarios still
start their removes after the failing count assertion, and all three pull
scenarios stop before any remove. -/
theorem cleanup_deferred_witness :
    (statusScenario cEmptyList []).1 =
      [Call.pull { image := testImageRef }, Call.status { image := testImageRef },
       Call.remove { image := testImageRef }] ∧
    (∃ d, (distinctScenario cEmptyList []).1 =
      distinctPulls ++ Call.list { image := none } ::
        Call.remove { image := "busybox:1-uclibc" } :: d) ∧
    (∃ d, (sharedScenario cEmptyList []).1 =
      sharedPulls ++ Call.list { image := none } ::
        Call.remove { image := "busybox:1.26.2-uclibc" } :: d) ∧
    ((pullTagScenario cEmptyList []).1 =
      [Call.pull { image := testImageRef },
       Call.list { image := some { image := testImageRef } }] ∧
     (pullTagScenario cEmptyList []).2 = Except.error ("Should have one image in list")) ∧
    ((pullUntaggedScenario cEmptyList []).1 =
      [Call.pull { image := "busybox:latest" },
       Call.list { image := some { image := "busybox:latest" } }] ∧
     (pullUntaggedScenario cEmptyList []).2 = Except.error ("Should have one image in list")) ∧
    ((pullDigestScenario cEmptyList []).1 =
      [Call.pull { image := busyboxDigestRef },
       Call.list { image := some { image := busyboxDigestRef } }] ∧
     (pullDigestScenario cEmptyList []).2 = Except.error ("Should have one image in list")) :=
  ⟨cleanup_deferred_only_in_status_and_count_scenarios.1 cEmptyList ("busybox:1.26.2") (by decide),
   cleanup_deferred_only_in_status_and_count_scenarios.2.1 cEmptyList
     ("busybox:1-uclibc") ("busybox:1-musl") ("busybox:1-glibc")
     (by decide) (by decide) (by decide),
   cleanup_deferred_only_in_status_and_count_scenarios.2.2.1 cEmptyList
     ("busybox:1.26.2-uclibc") ("busybox:1-uclibc") ("busybox:1")
     (by decide) (by decide) (by decide),
   cleanup_deferred_only_in_status_and_count_scenarios.2.2.2.1 cEmptyList
     ("busybox:1.26.2") [] (by decide) (by decide) (by decide),
   cleanup_deferred_only_in_status_and_count_scenarios.2.2.2.2.1 cEmptyList
     ("busybox:latest") [] (by decide) (by decide) (by decide),
   cleanup_deferred_only_in_status_and_count_scenarios.2.2.2.2.2 cEmptyList
     (busyboxDigestRef) [] (by decide) (by decide) (by decide)⟩

/-- Claim C7 as stated is false: in the pull-by-tag scenario the removal is
not scheduled via deferred execution — on a client whose list response is
empty the one-image assertion fails and no remove request is ever issued,
so cleanup is skipped because of an assertion failure. -/
theorem pullTagScenario_cleanup_skipped_counterexample :
    (pullTagScenario cEmptyList []).2 = Except.error ("Should have one image in list") ∧
    (pullTagScenario cEmptyList []).1 =
      [Call.pull { image := testImageRef },
       Call.list { image := some { image := testImageRef } }] ∧
    ((pullTagScenario cEmptyList []).1.any Call.isRemove) = false := by
  exact ⟨by decide, by decide, by decide⟩

end Validate

